import Mathlib

/-!
# Anvaya backend: lead management handlers of `index.js`

A shallow embedding of the repository operations and request handlers of
`src/index.js`.  Documents are records, a collection is a list of documents
in insertion order, the document store is a record of the four collections
and every operation passes the store explicitly.  `new Date()` is the
argument `now` (milliseconds since the epoch), a freshly generated
`ObjectId` is the argument `oid`.  An id in a path or in a query string is
the string the request carries; the driver casts it and throws `CastError`
when it is no `ObjectId`.

The Mongoose models (`Models/lead.models.js`, `Models/salesAgent.models.js`,
`Models/tag.models.js`, `Models/comment.models.js`) are not among the
sources: the Lead schema is the parameter `LeadSchema`, the field lists of
the documents follow the data model of the specification.
-/

namespace Anvaya

/-! ## Data model -/

/-- An `ObjectId`: the identifier of a stored document, as a number. -/
abbrev ObjectId := Nat

/-- A `Date`, in milliseconds since the epoch. -/
abbrev Date := Int

/-- The value of a hexadecimal digit. -/
def hexDigit (c : Char) : Option Nat :=
  if 48 ≤ c.toNat ∧ c.toNat ≤ 57 then some (c.toNat - 48)
  else if 97 ≤ c.toNat ∧ c.toNat ≤ 102 then some (c.toNat - 87)
  else if 65 ≤ c.toNat ∧ c.toNat ≤ 70 then some (c.toNat - 55)
  else none

/-- The value of a string of hexadecimal digits, most significant digit first. -/
def hexValue (acc : Nat) : List Char → Option Nat
  | [] => some acc
  | c :: cs =>
    match hexDigit c with
    | none => none
    | some d => hexValue (16 * acc + d) cs

/-- The cast of a string to an `ObjectId`, as Mongoose applies it to an id of a
path or of a filter: a string of 24 hexadecimal digits is an `ObjectId`, for any
other string (`none`) the driver throws `CastError`. -/
def castObjectId (s : String) : Option ObjectId :=
  if s.length = 24 then hexValue 0 s.toList else none

/-- A thrown error as the handlers inspect it: `error.name`, `error.code`
and `error.keyPattern` (field name and index direction, 1 or -1). -/
structure JsError where
  name : String
  code : Option Int := none
  keyPattern : Option (List (String × Int)) := none
  deriving DecidableEq, Repr

/-- A sales agent document. -/
structure SalesAgent where
  _id : ObjectId
  name : String
  email : String
  deriving DecidableEq, Repr

/-- A tag document. -/
structure Tag where
  _id : ObjectId
  name : String
  deriving DecidableEq, Repr

/-- A comment document: the lead it annotates, its author and its text. -/
structure Comment where
  _id : ObjectId
  lead : Option ObjectId
  author : Option ObjectId
  commentText : String
  deriving DecidableEq, Repr

/-- The keys of a lead that a request body can set: every one may be absent
(`none`).  `closedAt` may be absent (`none`), `null` or the empty string, which
Mongoose casts to `null` (`some none`), or a date (`some (some t)`). -/
structure LeadFields where
  name : Option String := none
  source : Option String := none
  salesAgent : Option ObjectId := none
  status : Option String := none
  tags : Option (List String) := none
  timeToClose : Option Nat := none
  priority : Option String := none
  closedAt : Option (Option Date) := none
  deriving DecidableEq, Repr

/-- A request body for a lead (`req.body` of `POST /leads` and `PUT /leads/:id`):
its top-level field keys and, since the body is handed on whole, the update
operator `$set` it may carry (`{ "$set": { "status": "Closed" } }`). -/
structure LeadBody extends LeadFields where
  /-- The key `$set`. -/
  set : Option LeadFields := none
  deriving DecidableEq, Repr

/-- A stored lead document.  An absent field is `none`; for `closedAt`, `none` is an
absent or `null` field. -/
structure Lead where
  _id : ObjectId
  name : Option String
  source : Option String
  salesAgent : Option ObjectId
  status : Option String
  tags : List String
  timeToClose : Option Nat
  priority : Option String
  createdAt : Date
  closedAt : Option Date
  deriving DecidableEq, Repr

/-- Modelled from the spec: the Lead schema of `Models/lead.models.js`, which
is not among the sources.  The specification says that creation fails "with
ValidationError on schema violations" and that an update re-runs schema
validation; which documents violate the schema and which defaults it fills in
is left open, so both are parameters. -/
structure LeadSchema where
  /-- The default of `status`, filled in where a document has none. -/
  statusDefault : Option String
  /-- The default of `priority`. -/
  priorityDefault : Option String
  /-- The document validators run by `save()`. -/
  validate : Lead → Bool
  /-- The update validators run by `findByIdAndUpdate` under `runValidators: true`. -/
  validateUpdate : LeadBody → Bool

/-- The document store: the four collections. -/
structure Store where
  agents : List SalesAgent := []
  leads : List Lead := []
  tags : List Tag := []
  comments : List Comment := []
  deriving DecidableEq, Repr

/-- The empty document store. -/
def Store.empty : Store := {}

/-- The error Mongoose raises when a document or an update violates the schema. -/
def validationError : JsError := { name := "ValidationError" }

/-- The error Mongoose raises when a value of a query cannot be cast to the type of
its path, here a string that is no `ObjectId`. -/
def castError : JsError := { name := "CastError" }

/-- The error of JavaScript when a value is called that is no function. -/
def typeError : JsError := { name := "TypeError" }

/-- The error of the store when a unique index (here the one on `_id`) is violated. -/
def duplicateIdError : JsError :=
  { name := "MongoServerError", code := some 11000, keyPattern := some [("_id", 1)] }

/-- The Mongoose document of a stored lead: where the stored document has no
`status` or no `priority`, the document read from it carries the schema default. -/
def hydrate (schema : LeadSchema) (l : Lead) : Lead :=
  { l with
    status := (l.status <|> schema.statusDefault)
    priority := (l.priority <|> schema.priorityDefault) }

/-! ## Lead repository: create and update -/

/-- Lines 108-110 and 241-243: `if (newLead.status === "Closed") newLead.closedAt = new Date()`.
The value is the object handed to the model afterwards. -/
def stampClosedAt (now : Date) (data : LeadBody) : LeadBody :=
  if data.status = some "Closed" then { data with closedAt := some (some now) } else data

/-- The document `new Lead(newLead)` builds: the field keys of the body (a key that
is no path of the schema, `$set` among them, is dropped), the schema defaults for
the absent ones, `createdAt` set at creation. -/
def newLeadDoc (schema : LeadSchema) (oid : ObjectId) (now : Date) (data : LeadBody) : Lead :=
  { _id := oid
    name := data.name
    source := data.source
    salesAgent := data.salesAgent
    status := (data.status <|> schema.statusDefault)
    tags := data.tags.getD []
    timeToClose := data.timeToClose
    priority := (data.priority <|> schema.priorityDefault)
    createdAt := now
    closedAt := data.closedAt.getD none }

/-- The call `lead.save()` on a new document: validation, then insertion under the
unique index on `_id`. -/
def leadSave (schema : LeadSchema) (store : Store) (doc : Lead) : Except JsError Lead × Store :=
  if schema.validate doc = false then (.error validationError, store)
  else if store.leads.any (fun l => l._id == doc._id) then (.error duplicateIdError, store)
  else (.ok doc, { store with leads := store.leads ++ [doc] })

/-- Lines 106-118, `createLead`. -/
def createLead (schema : LeadSchema) (store : Store) (oid : ObjectId) (now : Date)
    (newLead : LeadBody) : Except JsError Lead × Store :=
  leadSave schema store (newLeadDoc schema oid now (stampClosedAt now newLead))

/-- The `$set` document Mongoose sends for an update object: the top-level field
keys are written into the `$set` of the object, over a key of the same name. -/
def setDocument (data : LeadBody) : LeadFields :=
  match data.set with
  | none => data.toLeadFields
  | some s =>
    { name := (data.name <|> s.name)
      source := (data.source <|> s.source)
      salesAgent := (data.salesAgent <|> s.salesAgent)
      status := (data.status <|> s.status)
      tags := (data.tags <|> s.tags)
      timeToClose := (data.timeToClose <|> s.timeToClose)
      priority := (data.priority <|> s.priority)
      closedAt := (data.closedAt <|> s.closedAt) }

/-- A `$set` document on a stored lead: every field present in it replaces the
stored one. -/
def applySet (fields : LeadFields) (l : Lead) : Lead :=
  { l with
    name := (fields.name <|> l.name)
    source := (fields.source <|> l.source)
    salesAgent := (fields.salesAgent <|> l.salesAgent)
    status := (fields.status <|> l.status)
    tags := fields.tags.getD l.tags
    timeToClose := (fields.timeToClose <|> l.timeToClose)
    priority := (fields.priority <|> l.priority)
    closedAt := fields.closedAt.getD l.closedAt }

/-- An update object on a stored lead. -/
def applyUpdate (data : LeadBody) (l : Lead) : Lead :=
  applySet (setDocument data) l

/-- Update of the first document of the collection with the given `_id`. -/
def updateFirst (id : ObjectId) (data : LeadBody) : List Lead → List Lead
  | [] => []
  | l :: ls => if l._id = id then applyUpdate data l :: ls else l :: updateFirst id data ls

/-- The call `Lead.findByIdAndUpdate(id, data, { new: true, runValidators: true })`:
the id is cast, the update validators run, then the matching document, if any, is
updated and returned in its new state. -/
def findByIdAndUpdate (schema : LeadSchema) (store : Store) (id : String)
    (data : LeadBody) : Except JsError (Option Lead) × Store :=
  match castObjectId id with
  | none => (.error castError, store)
  | some oid =>
    if schema.validateUpdate data = false then (.error validationError, store)
    else
      match store.leads.find? (fun l => l._id == oid) with
      | none => (.ok none, store)
      | some l => (.ok (some (hydrate schema (applyUpdate data l))),
          { store with leads := updateFirst oid data store.leads })

/-- Lines 240-253, `updateLeadsById`. -/
def updateLeadsById (schema : LeadSchema) (store : Store) (now : Date) (leadId : String)
    (leadData : LeadBody) : Except JsError (Option Lead) × Store :=
  findByIdAndUpdate schema store leadId (stampClosedAt now leadData)

/-- Modelled from the spec: a Lead schema in the shape the data model describes, with
a required `name`, an enumerated `status` ("New, Contacted, Closed, ...") and defaults
for `status` and `priority`; the schema file is not among the sources. -/
def strictSchema : LeadSchema :=
  { statusDefault := some "New"
    priorityDefault := some "Medium"
    validate := fun l => l.name.isSome &&
      (match l.status with
        | none => false
        | some s => ["New", "Contacted", "Qualified", "Closed"].contains s)
    validateUpdate := fun b =>
      match (setDocument b).status with
      | none => true
      | some s => ["New", "Contacted", "Qualified", "Closed"].contains s }

/-- The schema `strictSchema` with `"Closed"` as the default of `status`. -/
def closedByDefaultSchema : LeadSchema :=
  { strictSchema with statusDefault := some "Closed" }

/-- The stores of leads reachable from the empty store by calls of `createLead`
and `updateLeadsById` whose request bodies satisfy `ok`. -/
inductive Reachable (schema : LeadSchema) (ok : LeadBody → Prop) : Store → Prop where
  | empty : Reachable schema ok Store.empty
  | create (store : Store) (oid : ObjectId) (now : Date) (body : LeadBody) :
      ok body → Reachable schema ok store →
      Reachable schema ok (createLead schema store oid now body).2
  | update (store : Store) (now : Date) (id : String) (body : LeadBody) :
      ok body → Reachable schema ok store →
      Reachable schema ok (updateLeadsById schema store now id body).2

/-- A request body is arbitrary. -/
def anyBody (_ : LeadBody) : Prop := True

/-- A request body of field keys only (no update operator) that does not carry
`closedAt: null`. -/
def plainBody (body : LeadBody) : Prop := body.set = none ∧ body.closedAt ≠ some none

/-- The id of the sample lead 1 as a request carries it. -/
def leadId1 : String := "000000000000000000000001"

/-- A lead is created as `"Closed"` at time 5 and updated to `"New"` at time 9. -/
def reopenedStore : Store :=
  (updateLeadsById strictSchema
    (createLead strictSchema Store.empty 1 5
      { name := some "L1", source := some "Referral", salesAgent := some 3,
        status := some "Closed", timeToClose := some 10, priority := some "High" }).2
    9 leadId1 { status := some "New" }).2

/-- A lead is created as `"New"` at time 5 with a `closedAt` of 3 in its body. -/
def preClosedStore : Store :=
  (createLead strictSchema Store.empty 1 5
    { name := some "L1", status := some "New", closedAt := some (some 3) }).2

/-- A lead is created as `"Closed"` at time 5 and updated with `closedAt: null` at
time 9. -/
def nulledStore : Store :=
  (updateLeadsById strictSchema
    (createLead strictSchema Store.empty 1 5 { name := some "L1", status := some "Closed" }).2
    9 leadId1 { closedAt := some none }).2

/-- A lead is created as `"New"` at time 5 and updated with the body
`{ "$set": { "status": "Closed" } }` at time 9. -/
def setClosedStore : Store :=
  (updateLeadsById strictSchema
    (createLead strictSchema Store.empty 1 5 { name := some "L1", status := some "New" }).2
    9 leadId1 { set := some { status := some "Closed" } }).2

/-- A lead is created without a status at time 5 under a schema whose default status
is `"Closed"`. -/
def defaultClosedStore : Store :=
  (createLead closedByDefaultSchema Store.empty 1 5 { name := some "L1" }).2

/-- A lead is created as `"Closed"` at time 5 and its priority is updated at time 9. -/
def reprioritisedStore : Store :=
  (updateLeadsById strictSchema
    (createLead strictSchema Store.empty 1 5 { name := some "L1", status := some "Closed" }).2
    9 leadId1 { priority := some "High" }).2

/-! ## Queries of the Lead collection -/

/-- A condition on a field: `field: v`, `field: { $ne: v }` or `field: { $in: [..] }`. -/
inductive Cond (α : Type) where
  | eq (v : α)
  | ne (v : α)
  | anyOf (vs : List α)
  deriving DecidableEq, Repr

/-- The query objects `index.js` passes to `Lead.find` and to `$match`, after the
cast of their values. An absent key is `none`. -/
structure LeadQuery where
  salesAgent : Option (Cond ObjectId) := none
  status : Option (Cond String) := none
  priority : Option (Cond String) := none
  /-- The key `tags: { $in: [..] }`. -/
  tagsIn : Option (List String) := none
  /-- The key `closedAt: { $gte: d }`. -/
  closedAtGte : Option Date := none
  deriving DecidableEq, Repr

/-- A field against a condition: equality and `$in` need the field to be there,
`$ne` also selects the documents without the field. -/
def Cond.holds {α : Type} [DecidableEq α] (c : Cond α) (field : Option α) : Bool :=
  match c with
  | .eq v => decide (field = some v)
  | .ne v => decide (field ≠ some v)
  | .anyOf vs =>
    match field with
    | none => false
    | some x => decide (x ∈ vs)

/-- Whether a lead matches a query: every key of the query holds.  `$in` on the
array field `tags` selects a lead one of whose tags is in the list, `$gte` on
`closedAt` selects no lead whose `closedAt` is `null`. -/
def LeadQuery.matches (q : LeadQuery) (l : Lead) : Bool :=
  (match q.salesAgent with
    | none => true
    | some c => c.holds l.salesAgent) &&
  (match q.status with
    | none => true
    | some c => c.holds l.status) &&
  (match q.priority with
    | none => true
    | some c => c.holds l.priority) &&
  (match q.tagsIn with
    | none => true
    | some ts => l.tags.any (fun t => decide (t ∈ ts))) &&
  (match q.closedAtGte with
    | none => true
    | some d => match l.closedAt with
      | none => false
      | some c => decide (d ≤ c))

/-- The call `Lead.find(query)`: the matching leads, in the order of the collection. -/
def leadFind (store : Store) (q : LeadQuery) : List Lead :=
  store.leads.filter q.matches

/-- The path `salesAgent` populated with `name email`: the referenced agent, or
`null` when the reference is absent or dangling. -/
def populateAgent (store : Store) (ref : Option ObjectId) : Option SalesAgent :=
  match ref with
  | none => none
  | some a => store.agents.find? (fun x => x._id == a)

/-- A lead under `.populate("salesAgent", "name email")` and
`.select("name source salesAgent status tags timeToClose priority createdAt")`. -/
structure LeadView where
  _id : ObjectId
  name : Option String
  source : Option String
  salesAgent : Option SalesAgent
  status : Option String
  tags : List String
  timeToClose : Option Nat
  priority : Option String
  createdAt : Date
  deriving DecidableEq, Repr

/-- The populated and projected view of a lead. -/
def leadView (schema : LeadSchema) (store : Store) (l : Lead) : LeadView :=
  { _id := l._id, name := l.name, source := l.source,
    salesAgent := populateAgent store l.salesAgent, status := (hydrate schema l).status,
    tags := l.tags, timeToClose := l.timeToClose, priority := (hydrate schema l).priority,
    createdAt := l.createdAt }

/-- A lead under `.populate("salesAgent", "name email")` and
`.select("name source salesAgent status closedAt priority")`. -/
structure ClosedDealView where
  _id : ObjectId
  name : Option String
  source : Option String
  salesAgent : Option SalesAgent
  status : Option String
  closedAt : Option Date
  priority : Option String
  deriving DecidableEq, Repr

/-- The populated and projected view of a closed deal. -/
def closedDealView (schema : LeadSchema) (store : Store) (l : Lead) : ClosedDealView :=
  { _id := l._id, name := l.name, source := l.source,
    salesAgent := populateAgent store l.salesAgent, status := (hydrate schema l).status,
    closedAt := l.closedAt, priority := (hydrate schema l).priority }

/-- A value of `req.query`: a string (`status=Closed`), the array of a repeated key
(`tags=a&tags=b`) or the nested object `{ $ne: v }` (`status[$ne]=Closed`). -/
inductive QueryValue where
  | str (s : String)
  | arr (items : List String)
  | ne (v : String)
  deriving DecidableEq, Repr

/-- The object `filters` of `readAllLeads`; an `undefined` key is `none`. -/
structure Filters where
  salesAgent : Option QueryValue := none
  status : Option QueryValue := none
  tags : Option QueryValue := none
  priority : Option QueryValue := none
  deriving DecidableEq, Repr

/-- The filters of a query string whose keys are plain strings. -/
def Filters.ofStrings (salesAgent status tags priority : Option String) : Filters :=
  { salesAgent := salesAgent.map QueryValue.str
    status := status.map QueryValue.str
    tags := tags.map QueryValue.str
    priority := priority.map QueryValue.str }

/-- The test `if (filters.key)`: `undefined` and the empty string are falsy, every
other string, every array and every object is truthy. -/
def truthy (v : Option QueryValue) : Option QueryValue :=
  match v with
  | none => none
  | some (.str s) => if s = "" then none else some (.str s)
  | some w => some w

/-- The cast of a list of strings to `ObjectId`s; one string that is no `ObjectId`
fails the cast. -/
def castObjectIds : List String → Option (List ObjectId)
  | [] => some []
  | s :: ss =>
    match castObjectId s, castObjectIds ss with
    | some a, some as => some (a :: as)
    | _, _ => none

/-- The cast Mongoose applies to a value of the query on the path `salesAgent`: a
string is an equality, an array a `$in`, and each string is cast to an `ObjectId`. -/
def castIdCond (v : QueryValue) : Except JsError (Cond ObjectId) :=
  match v with
  | .str s =>
    match castObjectId s with
    | none => .error castError
    | some a => .ok (.eq a)
  | .arr items =>
    match castObjectIds items with
    | none => .error castError
    | some as => .ok (.anyOf as)
  | .ne s =>
    match castObjectId s with
    | none => .error castError
    | some a => .ok (.ne a)

/-- The cast Mongoose applies to a value of the query on a string path (`status`,
`priority`): a string is an equality, an array a `$in`. -/
def castStrCond (v : QueryValue) : Cond String :=
  match v with
  | .str s => .eq s
  | .arr items => .anyOf items
  | .ne s => .ne s

/-- Line 142, `filters.tags.split(",")`: only a string has the method `split`. -/
def splitTags (v : QueryValue) : Except JsError (List String) :=
  match v with
  | .str s => .ok (s.splitOn ",")
  | _ => .error typeError

/-- Lines 137-142 of `readAllLeads` and the cast of the query by `Lead.find`: the
query built from the truthy filters.  The `split` of line 142 throws while the query
is built, the cast of `salesAgent` when the query runs. -/
def leadsQuery (filters : Filters) : Except JsError LeadQuery :=
  match (truthy filters.tags).mapM splitTags with
  | .error e => .error e
  | .ok tags =>
    match (truthy filters.salesAgent).mapM castIdCond with
    | .error e => .error e
    | .ok agent =>
      .ok { salesAgent := agent
            status := (truthy filters.status).map castStrCond
            priority := (truthy filters.priority).map castStrCond
            tagsIn := tags }

/-- Lines 135-153, `readAllLeads`. -/
def readAllLeads (schema : LeadSchema) (store : Store) (filters : Filters) :
    Except JsError (List LeadView) :=
  match leadsQuery filters with
  | .error e => .error e
  | .ok q => .ok ((leadFind store q).map (leadView schema store))

/-- Lines 177-187, `readLeadsByAgentId`: the leads of the agent, `salesAgent` populated. -/
def readLeadsByAgentId (schema : LeadSchema) (store : Store) (agentId : String) :
    Except JsError (List (Lead × Option SalesAgent)) :=
  match castObjectId agentId with
  | none => .error castError
  | some a => .ok ((leadFind store { salesAgent := some (.eq a) }).map
      (fun l => (hydrate schema l, populateAgent store l.salesAgent)))

/-- The number of milliseconds of a day. -/
def oneDay : Int := 24 * 60 * 60 * 1000

/-- The number of milliseconds of seven days. -/
def sevenDays : Int := 7 * oneDay

/-- The time zone of the server, as the local time of a JavaScript `Date` sees it:
the offset of local time from UTC, in milliseconds, at an instant given in UTC and
at an instant given in local time. -/
structure TimeZone where
  /-- The offset in force at a UTC instant (`LocalTZA(t, true)`). -/
  offsetAtUtc : Date → Int
  /-- The offset in force at a local time (`LocalTZA(t, false)`). -/
  offsetAtLocal : Int → Int

/-- The time zone UTC. -/
def utcZone : TimeZone := { offsetAtUtc := fun _ => 0, offsetAtLocal := fun _ => 0 }

/-- New York around 10 March 2024: five hours behind UTC before 07:00 UTC (02:00
local time) of that day, four hours behind from then on. -/
def newYorkZone : TimeZone :=
  { offsetAtUtc := fun t => if t < 1710054000000 then -18000000 else -14400000
    offsetAtLocal := fun t => if t < 1710036000000 then -18000000 else -14400000 }

/-- Lines 396-397: `sevenDayAgo.setDate(sevenDayAgo.getDate() - 7)` on `new Date()`.
`getDate` and `setDate` work on local time: the local time of `now`, seven calendar
days earlier, read back as an instant. -/
def sevenDayAgo (zone : TimeZone) (now : Date) : Date :=
  let localNow := now + zone.offsetAtUtc now
  let localThen := localNow - sevenDays
  localThen - zone.offsetAtLocal localThen

/-- The leads `Lead.find` selects in `readRecentClosedDeals`, before `populate` and `select`. -/
def recentClosedFound (zone : TimeZone) (store : Store) (now : Date) : List Lead :=
  leadFind store { status := some (.eq "Closed"), closedAtGte := some (sevenDayAgo zone now) }

/-- Lines 394-409, `readRecentClosedDeals`. -/
def readRecentClosedDeals (schema : LeadSchema) (zone : TimeZone) (store : Store)
    (now : Date) : List ClosedDealView :=
  (recentClosedFound zone store now).map (closedDealView schema store)

/-- Lines 430-437, `readLeadsInPipeline`. -/
def readLeadsInPipeline (schema : LeadSchema) (store : Store) : List Lead :=
  (leadFind store { status := some (.ne "Closed") }).map (hydrate schema)

/-! ## Closed leads by agent: the aggregation pipeline -/

/-- A document after the `$group` stage: the key `_id` (`null` for the leads
without `salesAgent`) and the count of the group. -/
structure AgentGroup where
  _id : Option ObjectId
  closedLeadsCount : Nat
  deriving DecidableEq, Repr

/-- A document after the `$project` stage. -/
structure ClosedByAgentRow where
  salesAgentId : ObjectId
  salesAgentName : String
  closedLeadsCount : Nat
  deriving DecidableEq, Repr

/-- The stage `$group: { _id: "$salesAgent", closedLeadsCount: { $sum: 1 } }`: one
document per distinct key, counting the leads of the key.  The store leaves the
order of the groups open; here it is the order of `List.dedup`. -/
def groupBySalesAgent (leads : List Lead) : List AgentGroup :=
  (leads.map (fun l => l.salesAgent)).dedup.map (fun k =>
    { _id := k, closedLeadsCount := leads.countP (fun l => decide (l.salesAgent = k)) })

/-- The stage `$lookup` from `salesagents` on `_id`: the agents whose `_id` is the
key of the group.  The `null` key joins no agent, every agent having an `_id`. -/
def lookupAgents (store : Store) (g : AgentGroup) : List SalesAgent :=
  match g._id with
  | none => []
  | some a => store.agents.filter (fun x => x._id == a)

/-- The stages `$unwind: "$salesAgentDetails"` and `$project` on one group: one row
per joined agent, none when the join is empty. -/
def unwindProject (store : Store) (g : AgentGroup) : List ClosedByAgentRow :=
  (lookupAgents store g).map (fun a =>
    { salesAgentId := a._id, salesAgentName := a.name, closedLeadsCount := g.closedLeadsCount })

/-- Lines 458-493, `readClosedLeadsByAgent`. -/
def readClosedLeadsByAgent (store : Store) : List ClosedByAgentRow :=
  let closed := leadFind store { status := some (.eq "Closed") }
  (groupBySalesAgent closed).flatMap (unwindProject store)

/-- The number of leads whose status is `"Closed"`. -/
def closedCount (store : Store) : Nat :=
  store.leads.countP (fun l => l.status == some "Closed")

/-! ## Delete, comments, tags, agents -/

/-- Removal of the first document of the collection with the given `_id`: the
removed document, if any, and the remaining collection. -/
def removeFirst (id : ObjectId) : List Lead → Option Lead × List Lead
  | [] => (none, [])
  | l :: ls =>
    if l._id = id then (some l, ls)
    else ((removeFirst id ls).1, l :: (removeFirst id ls).2)

/-- The call `Lead.findByIdAndDelete(id)`: the id is cast, then the first lead of
that id, if any, is removed and returned. -/
def findByIdAndDelete (schema : LeadSchema) (store : Store) (id : String) :
    Except JsError (Option Lead) × Store :=
  match castObjectId id with
  | none => (.error castError, store)
  | some oid =>
    (.ok ((removeFirst oid store.leads).1.map (hydrate schema)),
      { store with leads := (removeFirst oid store.leads).2 })

/-- Lines 273-280, `deleteLeadById`. -/
def deleteLeadById (schema : LeadSchema) (store : Store) (leadId : String) :
    Except JsError (Option Lead) × Store :=
  findByIdAndDelete schema store leadId

/-- A comment under `.populate("lead", "name ")` and `.populate("author", "name email")`. -/
structure CommentView where
  _id : ObjectId
  lead : Option (ObjectId × Option String)
  author : Option SalesAgent
  commentText : String
  deriving DecidableEq, Repr

/-- Lines 301-310, `readAllComments`. -/
def readAllComments (store : Store) (leadId : String) : Except JsError (List CommentView) :=
  match castObjectId leadId with
  | none => .error castError
  | some id =>
    .ok ((store.comments.filter (fun c => c.lead == some id)).map (fun c =>
      { _id := c._id
        lead := (store.leads.find? (fun l => some l._id == c.lead)).map
          (fun l => (l._id, l.name))
        author := populateAgent store c.author
        commentText := c.commentText }))

/-- Lines 55-62, `readAllAgents`. -/
def readAllAgents (store : Store) : List SalesAgent := store.agents

/-- Lines 371-378, `readAllTags`. -/
def readAllTags (store : Store) : List Tag := store.tags

/-! ## Request handlers -/

/-- The JSON bodies the handlers send. -/
inductive Body where
  | error (error : String)
  | message (message : String)
  | savedLead (message : String) (savedLead : Lead)
  | deletedLead (message : String) (deletedLead : Lead)
  | lead (lead : Lead)
  | agents (agents : List SalesAgent)
  | leadViews (leads : List LeadView)
  | agentLeads (leads : List (Lead × Option SalesAgent))
  | comments (comments : List CommentView)
  | tags (tags : List Tag)
  | closedDeals (leads : List ClosedDealView)
  | pipeline (totalLeadsInPipeline : Nat)
  | closedByAgent (rows : List ClosedByAgentRow)
  deriving DecidableEq, Repr

/-- A response: `res.status(..).json(..)`. -/
structure Response where
  status : Nat
  body : Body
  deriving DecidableEq, Repr

/-- The test `error.keyPattern?.email` of line 47: the key pattern is there and its
`email` entry is truthy (a number other than zero). -/
def keyPatternEmail (error : JsError) : Bool :=
  match error.keyPattern with
  | none => false
  | some kp =>
    match kp.lookup "email" with
    | none => false
    | some v => v != 0

/-- Lines 32-53, `app.post("/agents")`, on the outcome of `createSalesAgent(req.body)`. -/
def postAgents (outcome : Except JsError SalesAgent) : Response :=
  match outcome with
  | .ok _ => { status := 201, body := .message "New Sales agent created successfully!" }
  | .error error =>
    if error.name = "ValidationError" then
      { status := 400, body := .error "Invalid input or missing required fields." }
    else if error.code = some 11000 && keyPatternEmail error then
      { status := 409, body := .error "Email already exists." }
    else
      { status := 500, body := .error "Failed to create new agent." }

/-- Lines 120-131, `app.post("/leads")`. -/
def postLeads (schema : LeadSchema) (store : Store) (oid : ObjectId) (now : Date)
    (body : LeadBody) : Response × Store :=
  match createLead schema store oid now body with
  | (.ok savedLead, store1) =>
    ({ status := 201, body := .savedLead "New Lead created successfully!" savedLead }, store1)
  | (.error _, store1) =>
    ({ status := 500, body := .error "Failed to create new lead." }, store1)

/-- Lines 255-271, `app.put("/leads/:id")`. -/
def putLead (schema : LeadSchema) (store : Store) (now : Date) (leadId : String)
    (leadData : LeadBody) : Response × Store :=
  match updateLeadsById schema store now leadId leadData with
  | (.ok none, store1) => ({ status := 404, body := .error "Lead not found" }, store1)
  | (.ok (some updatedLead), store1) => ({ status := 200, body := .lead updatedLead }, store1)
  | (.error _, store1) =>
    ({ status := 500, body := .error "An error occurred while updating the lead" }, store1)

/-- Lines 282-299, `app.delete("/leads/:id")`. -/
def deleteLead (schema : LeadSchema) (store : Store) (id : String) : Response × Store :=
  match deleteLeadById schema store id with
  | (.ok none, store1) => ({ status := 404, body := .error "Lead not found" }, store1)
  | (.ok (some deletedLead), store1) =>
    ({ status := 200, body := .deletedLead "Lead deleted successfully" deletedLead }, store1)
  | (.error _, store1) =>
    ({ status := 500, body := .error "An error occured while deleting the lead!" }, store1)

/-- Lines 64-77, `app.get("/agents")`. -/
def getAgents (store : Store) : Response :=
  let allAgents := readAllAgents store
  if allAgents.length > 0 then { status := 200, body := .agents allAgents }
  else { status := 404, body := .error "No leads found" }

/-- Lines 155-175, `app.get("/leads")`. -/
def getLeads (schema : LeadSchema) (store : Store) (filters : Filters) : Response :=
  match readAllLeads schema store filters with
  | .ok allLeads =>
    if allLeads.length > 0 then { status := 200, body := .leadViews allLeads }
    else { status := 404, body := .error "No leads found" }
  | .error _ => { status := 500, body := .error "An error occurred while fetching leads" }

/-- The truthiness of a JavaScript array: every array is truthy, the empty one too. -/
def truthyArray {α : Type} (_ : List α) : Bool := true

/-- Lines 189-207, `app.get("/leads/agent/:agentId")`: the guard is `!lead`, on the
array `find` returns. -/
def getLeadsByAgent (schema : LeadSchema) (store : Store) (agentId : String) : Response :=
  match readLeadsByAgentId schema store agentId with
  | .ok lead =>
    if !truthyArray lead then
      { status := 404, body := .error "No assigned leads found for this agent." }
    else { status := 200, body := .agentLeads lead }
  | .error _ =>
    { status := 500, body := .error "An error occurred while fetching the lead for agent" }

/-- Lines 312-325, `app.get("/leads/:id/comments")`; `res.json` without a status sends 200. -/
def getComments (store : Store) (leadId : String) : Response :=
  match readAllComments store leadId with
  | .ok allComments =>
    if allComments.length > 0 then { status := 200, body := .comments allComments }
    else { status := 404, body := .error "No comments found for this lead ID." }
  | .error _ => { status := 500, body := .error "An error occured while fetching comments" }

/-- Lines 380-392, `app.get("/tags")`. -/
def getTags (store : Store) : Response :=
  let tags := readAllTags store
  if tags.length > 0 then { status := 200, body := .tags tags }
  else { status := 404, body := .error "Tags not found." }

/-- Lines 411-428, `app.get("/report/last-week")`. -/
def getLastWeek (schema : LeadSchema) (zone : TimeZone) (store : Store) (now : Date) :
    Response :=
  let recentClosedLeads := readRecentClosedDeals schema zone store now
  if recentClosedLeads.length > 0 then { status := 200, body := .closedDeals recentClosedLeads }
  else { status := 404, body := .error "No leads closed in the last seven days." }

/-- Lines 439-456, `app.get("/report/pipeline")`. -/
def getPipeline (schema : LeadSchema) (store : Store) : Response :=
  let totalLeadsInPipeline := readLeadsInPipeline schema store
  if totalLeadsInPipeline.length > 0 then
    { status := 200, body := .pipeline totalLeadsInPipeline.length }
  else { status := 404, body := .error "No Leads found in pipeline." }

/-- Lines 495-514, `app.get("/report/closed-by-agent")`. -/
def getClosedByAgent (store : Store) : Response :=
  let closedLeadsByAgent := readClosedLeadsByAgent store
  if closedLeadsByAgent.length > 0 then
    let formatted := closedLeadsByAgent.map (fun item =>
      ({ salesAgentId := item.salesAgentId, salesAgentName := item.salesAgentName,
         closedLeadsCount := item.closedLeadsCount } : ClosedByAgentRow))
    { status := 200, body := .closedByAgent formatted }
  else { status := 404, body := .error "No closed leads found" }

/-! ## Reference predicates and sample data -/

/-- A store with one open lead. -/
def oneLeadStore : Store :=
  { leads := [{ _id := 1, name := some "L1", source := none, salesAgent := none,
                status := some "New", tags := ["vip"], timeToClose := none, priority := none,
                createdAt := 0, closedAt := none }] }

/-- The id of an agent 7 as a request carries it. -/
def agentId7 : String := "000000000000000000000007"

/-- A filter as the specification words it: an `undefined` or empty filter imposes
nothing, a provided one imposes `p` of its value. -/
def whenProvided (filter : Option String) (p : String → Prop) : Prop :=
  match filter with
  | none => True
  | some s => s = "" ∨ p s

instance whenProvidedDecidable (filter : Option String) (p : String → Prop)
    [inst : ∀ s, Decidable (p s)] : Decidable (whenProvided filter p) :=
  match filter with
  | none => isTrue trivial
  | some s => inferInstanceAs (Decidable (s = "" ∨ p s))

/-- The filters as the specification words them: a lead satisfies all provided
filters at once, `salesAgent` (the id the string stands for), `status` and `priority`
by equality, `tags` by one tag of the lead being in the comma-separated list. -/
def satisfiesFilters (salesAgent status tags priority : Option String) (l : Lead) : Prop :=
  whenProvided salesAgent (fun s => l.salesAgent ≠ none ∧ l.salesAgent = castObjectId s) ∧
  whenProvided status (fun s => l.status = some s) ∧
  whenProvided priority (fun s => l.priority = some s) ∧
  whenProvided tags (fun s => ∃ t ∈ l.tags, t ∈ s.splitOn ",")

instance satisfiesFiltersDecidable (salesAgent status tags priority : Option String)
    (l : Lead) : Decidable (satisfiesFilters salesAgent status tags priority l) :=
  inferInstanceAs (Decidable (_ ∧ _ ∧ _ ∧ _))

/-- Whether a reference names an agent of the `salesagents` collection. -/
def refersToAgent (store : Store) (ref : Option ObjectId) : Bool :=
  match ref with
  | none => false
  | some a => store.agents.any (fun x => x._id == a)

/-- The number of leads whose status is `"Closed"` and whose `salesAgent` names a
stored agent. -/
def closedWithAgentCount (store : Store) : Nat :=
  store.leads.countP (fun l => l.status == some "Closed" && refersToAgent store l.salesAgent)

/-- The sum of `closedLeadsCount` over the rows of the report. -/
def closedLeadsTotal (rows : List ClosedByAgentRow) : Nat :=
  (rows.map (fun r => r.closedLeadsCount)).sum

/-- A closed lead with the given `_id` and `salesAgent`. -/
def closedLead (id : ObjectId) (agent : Option ObjectId) : Lead :=
  { _id := id, name := some "L", source := none, salesAgent := agent, status := some "Closed",
    tags := [], timeToClose := none, priority := none, createdAt := 0, closedAt := some 0 }

/-- One agent and three closed leads: one of the agent, one without `salesAgent`,
one whose `salesAgent` is not in the collection. -/
def orphanStore : Store :=
  { agents := [{ _id := 1, name := "A", email := "a@x.com" }]
    leads := [closedLead 10 (some 1), closedLead 11 none, closedLead 12 (some 9)] }

/-- One agent and two closed leads of the agent. -/
def assignedStore : Store :=
  { agents := [{ _id := 1, name := "A", email := "a@x.com" }]
    leads := [closedLead 10 (some 1), closedLead 11 (some 1)] }

/-- A store with one closed lead. -/
def oneClosedStore : Store := { leads := [closedLead 1 none] }

/-- Two leads and a comment on the first of them. -/
def commentedStore : Store :=
  { leads := [closedLead 1 none, closedLead 2 none]
    comments := [{ _id := 5, lead := some 1, author := none, commentText := "call back" }] }

/-- The instant 2024-03-12 16:00 UTC, noon in New York. -/
def noonNewYork : Date := 1710259200000

/-- A store with one lead closed at the given instant. -/
def closedAtStore (t : Date) : Store :=
  { leads := [{ closedLead 1 none with closedAt := some t }] }

/-! ## The stamp of `closedAt` -/

theorem mem_updateFirst (id : ObjectId) (data : LeadBody) (ls : List Lead) (l : Lead)
    (h : l ∈ updateFirst id data ls) : l ∈ ls ∨ ∃ l0 ∈ ls, l = applyUpdate data l0 := by
  induction ls with
  | nil => simp [updateFirst] at h
  | cons x xs ih =>
    unfold updateFirst at h
    split at h
    · rcases List.mem_cons.1 h with h1 | h1
      · exact Or.inr ⟨x, List.mem_cons_self _ _, h1⟩
      · exact Or.inl (List.mem_cons_of_mem _ h1)
    · rcases List.mem_cons.1 h with h1 | h1
      · exact Or.inl (h1 ▸ List.mem_cons_self _ _)
      · rcases ih h1 with h2 | ⟨l0, h2, h3⟩
        · exact Or.inl (List.mem_cons_of_mem _ h2)
        · exact Or.inr ⟨l0, List.mem_cons_of_mem _ h2, h3⟩

theorem stampClosedAt_closed (now : Date) (data : LeadBody) (h : data.status = some "Closed") :
    stampClosedAt now data = { data with closedAt := some (some now) } := by
  simp [stampClosedAt, h]

theorem stampClosedAt_other (now : Date) (data : LeadBody) (h : data.status ≠ some "Closed") :
    stampClosedAt now data = data := by
  simp [stampClosedAt, h]

theorem stampClosedAt_set (now : Date) (data : LeadBody) :
    (stampClosedAt now data).set = data.set := by
  unfold stampClosedAt
  split <;> rfl

theorem setDocument_closedAt (data : LeadBody) (v : Option Date)
    (h : data.closedAt = some v) : (setDocument data).closedAt = some v := by
  unfold setDocument
  cases data.set <;> simp [h]

theorem setDocument_status (data : LeadBody) (s : String)
    (h : data.status = some s) : (setDocument data).status = some s := by
  unfold setDocument
  cases data.set <;> simp [h]

theorem setDocument_plain (data : LeadBody) (h : data.set = none) :
    setDocument data = data.toLeadFields := by
  simp [setDocument, h]

theorem mem_createLead (schema : LeadSchema) (store : Store) (oid : ObjectId) (now : Date)
    (body : LeadBody) (l : Lead) (h : l ∈ (createLead schema store oid now body).2.leads) :
    l ∈ store.leads ∨ l = newLeadDoc schema oid now (stampClosedAt now body) := by
  unfold createLead leadSave at h
  split at h
  · exact Or.inl h
  · split at h
    · exact Or.inl h
    · simpa using h

theorem mem_updateLeadsById (schema : LeadSchema) (store : Store) (now : Date) (id : String)
    (body : LeadBody) (l : Lead) (h : l ∈ (updateLeadsById schema store now id body).2.leads) :
    l ∈ store.leads ∨ ∃ l0 ∈ store.leads, l = applyUpdate (stampClosedAt now body) l0 := by
  unfold updateLeadsById findByIdAndUpdate at h
  split at h
  · exact Or.inl h
  · split at h
    · exact Or.inl h
    · split at h
      · exact Or.inl h
      · exact mem_updateFirst _ _ _ _ h

/-- C2: the object `createLead` hands to `new Lead(..).save()` and the object
`updateLeadsById` hands to `findByIdAndUpdate` is the input with `closedAt` set to
`now` when the incoming status is `"Closed"` (every other field as in the input, and
whatever `closedAt` the stored lead had, it becomes `now`), and is the input itself,
`closedAt` included, when the incoming status is anything else or absent. -/
theorem closedAt_stamped_iff_incoming_closed (schema : LeadSchema) (store : Store)
    (oid : ObjectId) (leadId : String) (now : Date) (data : LeadBody) :
    createLead schema store oid now data
        = leadSave schema store (newLeadDoc schema oid now (stampClosedAt now data)) ∧
    updateLeadsById schema store now leadId data
        = findByIdAndUpdate schema store leadId (stampClosedAt now data) ∧
    (data.status = some "Closed" →
        stampClosedAt now data = { data with closedAt := some (some now) } ∧
        (newLeadDoc schema oid now (stampClosedAt now data)).closedAt = some now ∧
        ∀ stored : Lead, (applyUpdate (stampClosedAt now data) stored).closedAt = some now) ∧
    (data.status ≠ some "Closed" → stampClosedAt now data = data) := by
  refine ⟨rfl, rfl, fun h => ?_, fun h => stampClosedAt_other now data h⟩
  rw [stampClosedAt_closed now data h]
  refine ⟨rfl, rfl, fun stored => ?_⟩
  have hca := setDocument_closedAt { data with closedAt := some (some now) } (some now) rfl
  simp [applyUpdate, applySet, hca]

/-- C1, the claim fails: after a lead is created as `"Closed"` and then updated to
`"New"`, the store holds a lead whose status is `"New"` and whose `closedAt` is not
null, and so does the store after a lead is created as `"New"` with a `closedAt` in
its body.  A lead whose status is `"Closed"` and whose `closedAt` is null is stored
after a closed lead is updated with `closedAt: null`, after an open lead is updated
with the body `{ "$set": { "status": "Closed" } }`, and after a lead is created
without a status under a schema whose default status is `"Closed"`. -/
theorem reopened_lead_keeps_closedAt :
    (Reachable strictSchema anyBody reopenedStore ∧
      reopenedStore.leads =
        [{ _id := 1, name := some "L1", source := some "Referral", salesAgent := some 3,
           status := some "New", tags := [], timeToClose := some 10, priority := some "High",
           createdAt := 5, closedAt := some 5 }] ∧
      ¬ (∀ l ∈ reopenedStore.leads, l.closedAt ≠ none ↔ l.status = some "Closed")) ∧
    (Reachable strictSchema anyBody preClosedStore ∧
      preClosedStore.leads.map (fun l => (l.status, l.closedAt)) = [(some "New", some 3)] ∧
      ¬ (∀ l ∈ preClosedStore.leads, l.closedAt ≠ none ↔ l.status = some "Closed")) ∧
    (Reachable strictSchema anyBody nulledStore ∧
      nulledStore.leads.map (fun l => (l.status, l.closedAt)) = [(some "Closed", none)] ∧
      ¬ (∀ l ∈ nulledStore.leads, l.status = some "Closed" → l.closedAt ≠ none)) ∧
    (Reachable strictSchema anyBody setClosedStore ∧
      setClosedStore.leads.map (fun l => (l.status, l.closedAt)) = [(some "Closed", none)] ∧
      ¬ (∀ l ∈ setClosedStore.leads, l.status = some "Closed" → l.closedAt ≠ none)) ∧
    (Reachable closedByDefaultSchema anyBody defaultClosedStore ∧
      defaultClosedStore.leads.map (fun l => (l.status, l.closedAt))
        = [(some "Closed", none)] ∧
      ¬ (∀ l ∈ defaultClosedStore.leads, l.status = some "Closed" → l.closedAt ≠ none)) := by
  refine ⟨⟨?_, by decide, by decide⟩, ⟨?_, by decide, by decide⟩, ⟨?_, by decide, by decide⟩,
    ⟨?_, by decide, by decide⟩, ⟨?_, by decide, by decide⟩⟩
  · exact Reachable.update _ 9 _ _ trivial (Reachable.create _ 1 5 _ trivial Reachable.empty)
  · exact Reachable.create _ 1 5 _ trivial Reachable.empty
  · exact Reachable.update _ 9 _ _ trivial (Reachable.create _ 1 5 _ trivial Reachable.empty)
  · exact Reachable.update _ 9 _ _ trivial (Reachable.create _ 1 5 _ trivial Reachable.empty)
  · exact Reachable.create _ 1 5 _ trivial Reachable.empty

/-- C1 as amended: under a schema whose default status is not `"Closed"`, in every
store reachable from the empty store by calls of `createLead` and `updateLeadsById`
whose bodies have field keys only (no update operator) and do not carry
`closedAt: null`, every lead whose status is `"Closed"` has a `closedAt` that is not
null. -/
theorem closed_lead_has_closedAt (schema : LeadSchema)
    (hdefault : schema.statusDefault ≠ some "Closed") (store : Store)
    (hreach : Reachable schema plainBody store) :
    ∀ l ∈ store.leads, l.status = some "Closed" → l.closedAt ≠ none := by
  induction hreach with
  | empty => intro l hl; simp [Store.empty] at hl
  | create store oid now body hbody _ ih =>
    intro l hl hst
    rcases mem_createLead _ _ _ _ _ _ hl with h | h
    · exact ih l h hst
    · subst h
      by_cases hc : body.status = some "Closed"
      · rw [stampClosedAt_closed now body hc]; simp [newLeadDoc]
      · rw [stampClosedAt_other now body hc] at hst
        exfalso
        cases hb : body.status with
        | none => simp [newLeadDoc, hb] at hst; exact hdefault hst
        | some s => simp [newLeadDoc, hb] at hst; exact hc (hb.trans (congrArg some hst))
  | update store now id body hbody _ ih =>
    intro l hl hst
    rcases mem_updateLeadsById _ _ _ _ _ _ hl with h | ⟨l0, h0, h⟩
    · exact ih l h hst
    · subst h
      by_cases hc : body.status = some "Closed"
      · have hca : (stampClosedAt now body).closedAt = some (some now) := by
          rw [stampClosedAt_closed now body hc]
        simp [applyUpdate, applySet, setDocument_closedAt _ _ hca]
      · rw [stampClosedAt_other now body hc] at hst ⊢
        have hplain := setDocument_plain body hbody.1
        simp only [applyUpdate, hplain, applySet] at hst ⊢
        cases hb : body.status with
        | some s =>
          exfalso; simp [hb] at hst; exact hc (hb.trans (congrArg some hst))
        | none =>
          have h1 : l0.status = some "Closed" := by simpa [hb] using hst
          have h2 := ih l0 h0 h1
          cases hca : body.closedAt with
          | none => simpa [hca] using h2
          | some v =>
            cases v with
            | none => exact absurd hca hbody.2
            | some t => simp [hca]

/-- C1, an instance of the amended claim: a lead created as `"Closed"` at time 5 and
updated without a status at time 9 is closed and has a `closedAt`. -/
theorem closed_lead_has_closedAt_witness :
    (∃ l ∈ reprioritisedStore.leads, l.status = some "Closed") ∧
    ∀ l ∈ reprioritisedStore.leads, l.status = some "Closed" → l.closedAt ≠ none :=
  ⟨by decide,
   closed_lead_has_closedAt strictSchema (by decide) reprioritisedStore
    (Reachable.update _ 9 _ _ (by simp [plainBody])
      (Reachable.create _ 1 5 _ (by simp [plainBody]) Reachable.empty))⟩

/-! ## Error classification of the writing handlers -/

theorem postLeads_error (schema : LeadSchema) (store : Store) (oid : ObjectId) (now : Date)
    (body : LeadBody) (e : JsError) (h : (createLead schema store oid now body).1 = .error e) :
    (postLeads schema store oid now body).1
      = { status := 500, body := .error "Failed to create new lead." } := by
  unfold postLeads
  split
  · next l st heq => rw [heq] at h; cases h
  · rfl

theorem putLead_error (schema : LeadSchema) (store : Store) (now : Date) (id : String)
    (body : LeadBody) (e : JsError) (h : (updateLeadsById schema store now id body).1 = .error e) :
    (putLead schema store now id body).1
      = { status := 500, body := .error "An error occurred while updating the lead" } := by
  unfold putLead
  split
  · next st heq => rw [heq] at h; cases h
  · next l st heq => rw [heq] at h; cases h
  · rfl

/-- C3, the code at the failing inputs: a body without the required fields makes
`createLead` fail with `ValidationError` and `POST /leads` answers 500; an update to a
status outside the enumeration makes `updateLeadsById` fail with `ValidationError`
and `PUT /leads/:id` answers 500. -/
theorem lead_writes_answer_500_on_validation_error :
    (createLead strictSchema Store.empty 1 0 {}).1 = .error validationError ∧
    validationError.name = "ValidationError" ∧
    (postLeads strictSchema Store.empty 1 0 {}).1
      = { status := 500, body := .error "Failed to create new lead." } ∧
    (updateLeadsById strictSchema oneLeadStore 0 leadId1 { status := some "Lost" }).1
      = .error validationError ∧
    (putLead strictSchema oneLeadStore 0 leadId1 { status := some "Lost" }).1
      = { status := 500, body := .error "An error occurred while updating the lead" } :=
  ⟨rfl, rfl, rfl, rfl, rfl⟩

theorem keyPatternEmail_iff (e : JsError) :
    keyPatternEmail e = true ↔
      ∃ kp v, e.keyPattern = some kp ∧ kp.lookup "email" = some v ∧ v ≠ 0 := by
  unfold keyPatternEmail
  cases hk : e.keyPattern with
  | none => simp
  | some kp =>
    cases hl : kp.lookup "email" with
    | none => simp [hl]
    | some v => simp [hl]

/-- C4: `POST /agents` answers 201 with a message when the save succeeds, 400 exactly
when the name of the error is `ValidationError`, 409 exactly when the error is no
`ValidationError` and is a duplicate key error, that is one whose code is 11000 and
whose key pattern has an `email` entry other than zero, and 500 for every other
error.  The duplicate key error of the store on the index `{ email: 1 }` is answered
with 409, an error with code 11000 and an `email` key is never answered with 500, and
the error body is one of three fixed strings, fixed by the status alone. -/
theorem postAgents_classifies :
    (∀ a : SalesAgent, postAgents (.ok a)
        = { status := 201, body := .message "New Sales agent created successfully!" }) ∧
    (∀ e : JsError,
      ((postAgents (.error e)).status = 400 ↔ e.name = "ValidationError") ∧
      ((postAgents (.error e)).status = 409 ↔
        e.name ≠ "ValidationError" ∧ e.code = some 11000 ∧
          ∃ kp v, e.keyPattern = some kp ∧ kp.lookup "email" = some v ∧ v ≠ 0) ∧
      ((postAgents (.error e)).status = 500 ↔
        e.name ≠ "ValidationError" ∧
          ¬ (e.code = some 11000 ∧
            ∃ kp v, e.keyPattern = some kp ∧ kp.lookup "email" = some v ∧ v ≠ 0)) ∧
      (postAgents (.error e)
          = { status := 400, body := .error "Invalid input or missing required fields." } ∨
       postAgents (.error e) = { status := 409, body := .error "Email already exists." } ∨
       postAgents (.error e) = { status := 500, body := .error "Failed to create new agent." })) ∧
    (∀ (name : String) (kp : List (String × Int)) (v : Int),
      kp.lookup "email" = some v → v ≠ 0 →
      (postAgents (.error { name := name, code := some 11000, keyPattern := some kp })).status
          ≠ 500 ∧
      (name ≠ "ValidationError" →
        postAgents (.error { name := name, code := some 11000, keyPattern := some kp })
          = { status := 409, body := .error "Email already exists." })) ∧
    postAgents (.error { name := "MongoServerError", code := some 11000,
                         keyPattern := some [("email", 1)] })
      = { status := 409, body := .error "Email already exists." } ∧
    postAgents (.error { name := "MongoServerError", code := some 11000,
                         keyPattern := some [("name", 1)] })
      = { status := 500, body := .error "Failed to create new agent." } ∧
    postAgents (.error { name := "MongooseError" })
      = { status := 500, body := .error "Failed to create new agent." } ∧
    (∀ e1 e2 : JsError, (postAgents (.error e1)).status = (postAgents (.error e2)).status →
      postAgents (.error e1) = postAgents (.error e2)) := by
  have hcases : ∀ e : JsError,
      ((postAgents (.error e)).status = 400 ↔ e.name = "ValidationError") ∧
      ((postAgents (.error e)).status = 409 ↔
        e.name ≠ "ValidationError" ∧ e.code = some 11000 ∧ keyPatternEmail e = true) ∧
      ((postAgents (.error e)).status = 500 ↔
        e.name ≠ "ValidationError" ∧ ¬ (e.code = some 11000 ∧ keyPatternEmail e = true)) ∧
      (postAgents (.error e)
          = { status := 400, body := .error "Invalid input or missing required fields." } ∨
       postAgents (.error e) = { status := 409, body := .error "Email already exists." } ∨
       postAgents (.error e) = { status := 500, body := .error "Failed to create new agent." }) := by
    intro e
    by_cases h1 : e.name = "ValidationError"
    · simp [postAgents, h1]
    · by_cases h2 : e.code = some 11000
      · by_cases h3 : keyPatternEmail e = true
        · simp [postAgents, h1, h2, h3]
        · simp [postAgents, h1, h2, h3]
      · simp [postAgents, h1, h2]
  refine ⟨fun _ => rfl, fun e => ?_, fun name kp v hl hv => ?_, rfl, rfl, rfl, fun e1 e2 => ?_⟩
  · rw [← keyPatternEmail_iff e]
    exact hcases e
  · have hkp : keyPatternEmail { name := name, code := some 11000, keyPattern := some kp } = true :=
      (keyPatternEmail_iff _).2 ⟨kp, v, rfl, hl, hv⟩
    have h := hcases { name := name, code := some 11000, keyPattern := some kp }
    constructor
    · intro h500
      exact (h.2.2.1.1 h500).2 ⟨rfl, hkp⟩
    · intro h1
      have h409 := h.2.1.2 ⟨h1, rfl, hkp⟩
      rcases h.2.2.2 with h4 | h4 | h4
      · rw [h4] at h409; cases h409
      · exact h4
      · rw [h4] at h409; cases h409
  · unfold postAgents
    dsimp only
    split_ifs <;> simp

/-! ## The filtered list of leads -/

theorem whenProvided_iff (filter : Option String) (p : String → Prop) :
    whenProvided filter p ↔ ∀ s, filter = some s → s ≠ "" → p s := by
  cases filter with
  | none => simp [whenProvided]
  | some x =>
    simp only [whenProvided, Option.some.injEq]
    constructor
    · rintro (h | h) s rfl hs
      · exact absurd h hs
      · exact h
    · intro h
      by_cases hx : x = ""
      · exact Or.inl hx
      · exact Or.inr (h x rfl hx)

theorem truthy_str (v : Option String) :
    truthy (v.map QueryValue.str) =
      match v with
      | none => none
      | some s => if s = "" then none else some (.str s) := by
  cases v <;> rfl

theorem leadsQuery_ofStrings (salesAgent status tags priority : Option String)
    (hid : ∀ s, salesAgent = some s → s ≠ "" → castObjectId s ≠ none) :
    ∃ q, leadsQuery (Filters.ofStrings salesAgent status tags priority) = .ok q ∧
      ∀ l, q.matches l = true ↔ satisfiesFilters salesAgent status tags priority l := by
  have hstr : ∀ (v : Option String) (field : Option String),
      (match (truthy (v.map QueryValue.str)).map castStrCond with
        | none => true
        | some c => c.holds field) = true ↔ whenProvided v (fun s => field = some s) := by
    intro v field
    cases v with
    | none => simp [truthy, whenProvided]
    | some x =>
      by_cases hx : x = ""
      · simp [truthy, whenProvided, hx]
      · simp [truthy, whenProvided, hx, castStrCond, Cond.holds]
  have htags : ∀ (v : Option String),
      ∃ ts, (truthy (v.map QueryValue.str)).mapM splitTags = .ok ts ∧
        ∀ l : Lead, (match ts with
            | none => true
            | some ts => l.tags.any (fun t => decide (t ∈ ts))) = true ↔
          whenProvided v (fun s => ∃ t ∈ l.tags, t ∈ s.splitOn ",") := by
    intro v
    cases v with
    | none => exact ⟨none, rfl, fun l => by simp [whenProvided]⟩
    | some x =>
      by_cases hx : x = ""
      · exact ⟨none, by simp [truthy, hx, Option.mapM]; rfl, fun l => by simp [whenProvided, hx]⟩
      · refine ⟨some (x.splitOn ","), ?_, fun l => ?_⟩
        · simp [truthy, hx, Option.mapM, splitTags]
        · simp [whenProvided, hx]
  have hagent : ∃ c, (truthy (salesAgent.map QueryValue.str)).mapM castIdCond = .ok c ∧
      ∀ l : Lead, (match c with
          | none => true
          | some c => c.holds l.salesAgent) = true ↔
        whenProvided salesAgent (fun s => l.salesAgent ≠ none ∧ l.salesAgent = castObjectId s) := by
    cases hsa : salesAgent with
    | none => exact ⟨none, rfl, fun l => by simp [whenProvided]⟩
    | some x =>
      by_cases hx : x = ""
      · exact ⟨none, by simp [truthy, hx, Option.mapM]; rfl, fun l => by simp [whenProvided, hx]⟩
      · cases hc : castObjectId x with
        | none => exact absurd hc (hid x hsa hx)
        | some a =>
          refine ⟨some (.eq a), ?_, fun l => ?_⟩
          · simp [truthy, hx, Option.mapM, castIdCond, hc]
          · simp only [whenProvided, hx, false_or, Cond.holds, decide_eq_true_eq, hc]
            constructor
            · intro h; rw [h]; exact ⟨by simp, rfl⟩
            · intro h; exact h.2
  rcases htags tags with ⟨ts, hts, htsl⟩
  rcases hagent with ⟨c, hc, hcl⟩
  refine ⟨{ salesAgent := c
            status := (truthy (status.map QueryValue.str)).map castStrCond
            priority := (truthy (priority.map QueryValue.str)).map castStrCond
            tagsIn := ts }, ?_, fun l => ?_⟩
  · simp only [leadsQuery, Filters.ofStrings, hts, hc]
  · unfold LeadQuery.matches satisfiesFilters
    simp only [Bool.and_eq_true, and_assoc, Bool.and_true, and_true]
    rw [hcl l, hstr status l.status, hstr priority l.priority, htsl l]

/-- C5, the claim fails: for the repeated key `tags=vip&tags=new` the `split` of line
142 throws and `GET /leads` answers 500, although the stored lead carries the tag
`vip`; for `salesAgent=7`, a string that is no `ObjectId`, the cast of the query
throws and `GET /leads` answers 500; for `status[$ne]=Closed` the filter runs as the
operator `$ne` and the lead of status `"New"` is returned. -/
theorem readAllLeads_fails_on_other_values :
    oneLeadStore.leads.map (fun l => (l.status, l.tags)) = [(some "New", ["vip"])] ∧
    readAllLeads strictSchema oneLeadStore { tags := some (.arr ["vip", "new"]) }
      = .error typeError ∧
    getLeads strictSchema oneLeadStore { tags := some (.arr ["vip", "new"]) }
      = { status := 500, body := .error "An error occurred while fetching leads" } ∧
    readAllLeads strictSchema oneLeadStore { salesAgent := some (.str "7") }
      = .error castError ∧
    getLeads strictSchema oneLeadStore { salesAgent := some (.str "7") }
      = { status := 500, body := .error "An error occurred while fetching leads" } ∧
    readAllLeads strictSchema oneLeadStore { status := some (.ne "Closed") }
      = .ok [{ _id := 1, name := some "L1", source := none, salesAgent := none,
               status := some "New", tags := ["vip"], timeToClose := none,
               priority := some "Medium", createdAt := 0 }] :=
  ⟨rfl, rfl, rfl, rfl, rfl, rfl⟩

/-- C5 as amended: for every store and every filters object whose values are strings
(or `undefined`) and whose `salesAgent`, when not empty, is the string of an
`ObjectId`, `readAllLeads` returns, in the order of the store, the views (agent
populated, the selected fields, `closedAt` left out) of exactly the leads that satisfy
all provided filters at once: `salesAgent`, `status` and `priority` by equality,
`tags` by one tag in the comma-separated list.  An `undefined` or empty filter
imposes nothing, so without filters every lead satisfies them, and
`status=Closed&priority=High` is satisfied by the leads that are both. -/
theorem readAllLeads_conjunction (schema : LeadSchema) (store : Store)
    (salesAgent status tags priority : Option String)
    (hid : ∀ s, salesAgent = some s → s ≠ "" → castObjectId s ≠ none) :
    readAllLeads schema store (Filters.ofStrings salesAgent status tags priority)
      = .ok ((store.leads.filter
          (fun l => decide (satisfiesFilters salesAgent status tags priority l))).map
          (fun l =>
            ({ _id := l._id, name := l.name, source := l.source,
               salesAgent :=
                 (match l.salesAgent with
                  | none => none
                  | some a => store.agents.find? (fun x => x._id == a)),
               status := (l.status <|> schema.statusDefault), tags := l.tags,
               timeToClose := l.timeToClose,
               priority := (l.priority <|> schema.priorityDefault),
               createdAt := l.createdAt } : LeadView))) ∧
    (∀ l, satisfiesFilters salesAgent status tags priority l ↔
      (∀ s, salesAgent = some s → s ≠ "" →
        ∃ a, castObjectId s = some a ∧ l.salesAgent = some a) ∧
      (∀ s, status = some s → s ≠ "" → l.status = some s) ∧
      (∀ s, priority = some s → s ≠ "" → l.priority = some s) ∧
      (∀ s, tags = some s → s ≠ "" → ∃ t ∈ l.tags, t ∈ s.splitOn ",")) ∧
    (∀ l, satisfiesFilters none none none none l) ∧
    (∀ l, satisfiesFilters (some "") (some "") (some "") (some "") l) ∧
    (∀ l, satisfiesFilters none (some "Closed") none (some "High") l ↔
      l.status = some "Closed" ∧ l.priority = some "High") := by
  refine ⟨?_, fun l => ?_, fun l => ?_, fun l => ?_, fun l => ?_⟩
  · rcases leadsQuery_ofStrings salesAgent status tags priority hid with ⟨q, hq, hm⟩
    unfold readAllLeads
    rw [hq]
    simp only [leadFind]
    congr 1
    have hf : store.leads.filter q.matches = store.leads.filter
        (fun l => decide (satisfiesFilters salesAgent status tags priority l)) := by
      apply List.filter_congr
      intro l _
      by_cases h : satisfiesFilters salesAgent status tags priority l
      · simp [h, (hm l).2 h]
      · have : q.matches l = false := by
          cases hq2 : q.matches l with
          | false => rfl
          | true => exact absurd ((hm l).1 hq2) h
        simp [h, this]
    rw [hf]
    apply List.map_congr_left
    intro l _
    cases hsa : l.salesAgent <;> simp [leadView, hydrate, populateAgent, hsa]
  · unfold satisfiesFilters
    simp only [whenProvided_iff]
    refine and_congr ?_ Iff.rfl
    constructor
    · intro h s hs hne
      have := h s hs hne
      cases hc : castObjectId s with
      | none => rw [hc] at this; exact absurd this.2 this.1
      | some a => rw [hc] at this; exact ⟨a, rfl, this.2⟩
    · intro h s hs hne
      rcases h s hs hne with ⟨a, ha, hl⟩
      rw [ha, hl]; exact ⟨by simp, rfl⟩
  · simp [satisfiesFilters, whenProvided]
  · simp [satisfiesFilters, whenProvided]
  · simp [satisfiesFilters, whenProvided]

/-- C5, an instance of the amended claim: `GET /leads?salesAgent=<agent 1>&status=Closed`
with an empty `priority`, on the store with three closed leads of which one is of
agent 1, returns the view of that lead, the agent populated. -/
theorem readAllLeads_conjunction_witness :
    readAllLeads strictSchema orphanStore
        (Filters.ofStrings (some leadId1) (some "Closed") none (some ""))
      = .ok [{ _id := 10, name := some "L", source := none,
               salesAgent := some { _id := 1, name := "A", email := "a@x.com" },
               status := some "Closed", tags := [], timeToClose := none,
               priority := some "Medium", createdAt := 0 }] :=
  (readAllLeads_conjunction strictSchema orphanStore (some leadId1) (some "Closed")
    none (some "") (by intro s hs _; cases hs; decide)).1.trans rfl

/-! ## Empty collections -/

/-- C6, the code at the failing input: for an agent without assigned leads the query
of `GET /leads/agent/:agentId` is empty and the handler answers 200 with the empty
array; it never answers 404, and it answers 200 in every store for every id that is
an `ObjectId`. -/
theorem getLeadsByAgent_never_404 :
    castObjectId agentId7 = some 7 ∧
    readLeadsByAgentId strictSchema oneLeadStore agentId7 = .ok [] ∧
    getLeadsByAgent strictSchema oneLeadStore agentId7
      = { status := 200, body := .agentLeads [] } ∧
    (∀ (schema : LeadSchema) (store : Store) (agentId : String),
      (getLeadsByAgent schema store agentId).status ≠ 404) ∧
    (∀ (schema : LeadSchema) (store : Store) (agentId : String) (a : ObjectId),
      castObjectId agentId = some a → (getLeadsByAgent schema store agentId).status = 200) := by
  refine ⟨by decide, rfl, rfl, fun schema store agentId => ?_, fun schema store agentId a h => ?_⟩
  · unfold getLeadsByAgent
    split <;> simp [truthyArray]
  · simp [getLeadsByAgent, readLeadsByAgentId, h, truthyArray]

theorem status_of_length {α : Type} (xs : List α) (ok notFound : Response)
    (h1 : ok.status = 200) (h2 : notFound.status = 404) :
    ((if xs.length > 0 then ok else notFound).status = 404 ↔ xs = []) ∧
    (xs ≠ [] → (if xs.length > 0 then ok else notFound).status = 200) := by
  cases xs with
  | nil => simp [h2]
  | cons x xs => simp [h1]

/-- The seven other handlers that return a collection answer 404 exactly when the
query is empty and 200 when it is not. -/
theorem collection_handlers_404_iff_empty (schema : LeadSchema) (zone : TimeZone)
    (store : Store) (filters : Filters) (leadId : String) (now : Date) :
    (((getAgents store).status = 404 ↔ readAllAgents store = []) ∧
      (readAllAgents store ≠ [] → (getAgents store).status = 200)) ∧
    (((getLeads schema store filters).status = 404 ↔
        readAllLeads schema store filters = .ok []) ∧
      (∀ ls, readAllLeads schema store filters = .ok ls → ls ≠ [] →
        (getLeads schema store filters).status = 200)) ∧
    (((getComments store leadId).status = 404 ↔ readAllComments store leadId = .ok []) ∧
      (∀ cs, readAllComments store leadId = .ok cs → cs ≠ [] →
        (getComments store leadId).status = 200)) ∧
    (((getTags store).status = 404 ↔ readAllTags store = []) ∧
      (readAllTags store ≠ [] → (getTags store).status = 200)) ∧
    (((getLastWeek schema zone store now).status = 404 ↔
        readRecentClosedDeals schema zone store now = []) ∧
      (readRecentClosedDeals schema zone store now ≠ [] →
        (getLastWeek schema zone store now).status = 200)) ∧
    (((getPipeline schema store).status = 404 ↔ readLeadsInPipeline schema store = []) ∧
      (readLeadsInPipeline schema store ≠ [] → (getPipeline schema store).status = 200)) ∧
    (((getClosedByAgent store).status = 404 ↔ readClosedLeadsByAgent store = []) ∧
      (readClosedLeadsByAgent store ≠ [] → (getClosedByAgent store).status = 200)) := by
  refine ⟨status_of_length _ _ _ rfl rfl, ⟨?_, ?_⟩, ⟨?_, ?_⟩, status_of_length _ _ _ rfl rfl,
    status_of_length _ _ _ rfl rfl, status_of_length _ _ _ rfl rfl,
    status_of_length _ _ _ rfl rfl⟩
  · unfold getLeads
    cases h : readAllLeads schema store filters with
    | error e => simp
    | ok ls => cases ls <;> simp
  · intro ls h hne
    unfold getLeads
    rw [h]
    cases ls with
    | nil => exact absurd rfl hne
    | cons x xs => simp
  · unfold getComments
    cases h : readAllComments store leadId with
    | error e => simp
    | ok cs => cases cs <;> simp
  · intro cs h hne
    unfold getComments
    rw [h]
    cases cs with
    | nil => exact absurd rfl hne
    | cons x xs => simp

/-! ## Closed leads by agent -/

theorem sum_map_flatMap {α β : Type} (f : α → List β) (g : β → Nat) (l : List α) :
    ((l.flatMap f).map g).sum = (l.map (fun x => ((f x).map g).sum)).sum := by
  induction l with
  | nil => rfl
  | cons x xs ih => simp [List.flatMap_cons, ih]

theorem sum_map_indicator {α : Type} (p : α → Bool) (f : α → Nat) (l : List α) :
    (l.map (fun x => if p x = true then f x else 0)).sum = ((l.filter p).map f).sum := by
  induction l with
  | nil => rfl
  | cons x xs ih =>
    by_cases hx : p x = true
    · simp [List.filter_cons, hx, ih]
    · simp [List.filter_cons, hx, ih]

theorem lookupAgents_length (store : Store) (hids : (store.agents.map (fun a => a._id)).Nodup)
    (k : Option ObjectId) (n : Nat) :
    (lookupAgents store { _id := k, closedLeadsCount := n }).length
      = if refersToAgent store k = true then 1 else 0 := by
  cases k with
  | none => simp [lookupAgents, refersToAgent]
  | some a =>
    have h1 : (store.agents.filter (fun x => x._id == a)).length
        = (store.agents.map (fun x => x._id)).count a := by
      rw [List.count, List.countP_map, List.countP_eq_length_filter]
      rfl
    simp only [lookupAgents, refersToAgent, h1, List.count_eq_of_nodup hids]
    by_cases hm : a ∈ store.agents.map (fun x => x._id)
    · have : store.agents.any (fun x => x._id == a) = true := by
        rcases List.mem_map.1 hm with ⟨x, hx, rfl⟩
        exact List.any_eq_true.2 ⟨x, hx, by simp⟩
      simp [hm, this]
    · have : ¬ (store.agents.any (fun x => x._id == a) = true) := by
        intro h
        rcases List.any_eq_true.1 h with ⟨x, hx, hxa⟩
        exact hm (List.mem_map.2 ⟨x, hx, by simpa using hxa⟩)
      simp [hm, this]

theorem closedLeadsTotal_eq (store : Store)
    (hids : (store.agents.map (fun a => a._id)).Nodup) :
    closedLeadsTotal (readClosedLeadsByAgent store) = closedWithAgentCount store := by
  unfold closedLeadsTotal readClosedLeadsByAgent groupBySalesAgent
  simp only [sum_map_flatMap, List.map_map]
  have hrow : ∀ k : Option ObjectId, ∀ n : Nat,
      ((unwindProject store { _id := k, closedLeadsCount := n }).map
        (fun r => r.closedLeadsCount)).sum
        = if refersToAgent store k = true then n else 0 := by
    intro k n
    have hlen := lookupAgents_length store hids k n
    have hsum : ((unwindProject store { _id := k, closedLeadsCount := n }).map
        (fun r => r.closedLeadsCount)).sum
        = (lookupAgents store { _id := k, closedLeadsCount := n }).length * n := by
      simp [unwindProject, List.map_map, Function.comp_def]
    rw [hsum, hlen]
    split <;> simp
  have hcount : ∀ (ls : List Lead) (k : Option ObjectId),
      ls.countP (fun l => decide (l.salesAgent = k))
        = @List.count _ instBEqOfDecidableEq k (ls.map (fun l => l.salesAgent)) := by
    intro ls k
    have hdef : @List.count _ instBEqOfDecidableEq k (ls.map (fun l => l.salesAgent))
        = List.countP (fun x => @BEq.beq _ instBEqOfDecidableEq x k)
            (ls.map (fun l => l.salesAgent)) := rfl
    rw [hdef, List.countP_map]
    apply List.countP_congr
    intro l _
    simp [Function.comp_def]
  simp only [Function.comp_def, hrow, sum_map_indicator, hcount]
  refine (List.sum_map_count_dedup_filter_eq_countP (refersToAgent store) _).trans ?_
  rw [List.countP_map]
  simp only [leadFind, List.countP_filter, closedWithAgentCount]
  congr 1
  funext l
  by_cases h : l.status = some "Closed" <;>
    simp [LeadQuery.matches, Cond.holds, Function.comp_def, Bool.and_comm, h]

/-- C7, the claim fails: with one closed lead of a stored agent, one closed lead
without `salesAgent` and one closed lead of an agent that is not stored, the report
has the single row of the stored agent, of count 1, while three leads are closed. -/
theorem closed_by_agent_drops_unassigned :
    readClosedLeadsByAgent orphanStore
      = [{ salesAgentId := 1, salesAgentName := "A", closedLeadsCount := 1 }] ∧
    closedLeadsTotal (readClosedLeadsByAgent orphanStore) = 1 ∧
    closedCount orphanStore = 3 ∧
    closedLeadsTotal (readClosedLeadsByAgent orphanStore) ≠ closedCount orphanStore := by
  decide

/-- C7 as amended: in a store whose agents have distinct `_id`, the sum of
`closedLeadsCount` over the rows of `readClosedLeadsByAgent` is the number of leads
whose status is `"Closed"` and whose `salesAgent` names a stored agent; it is the
number of all closed leads when every closed lead names a stored agent. -/
theorem closed_by_agent_sum (store : Store)
    (hids : (store.agents.map (fun a => a._id)).Nodup) :
    closedLeadsTotal (readClosedLeadsByAgent store) = closedWithAgentCount store ∧
    ((∀ l ∈ store.leads, l.status = some "Closed" → refersToAgent store l.salesAgent = true) →
      closedLeadsTotal (readClosedLeadsByAgent store) = closedCount store) := by
  refine ⟨closedLeadsTotal_eq store hids, fun hall => ?_⟩
  rw [closedLeadsTotal_eq store hids]
  unfold closedWithAgentCount closedCount
  apply List.countP_congr
  intro l hl
  constructor
  · intro h; simp only [Bool.and_eq_true] at h; exact h.1
  · intro h
    simp only [Bool.and_eq_true]
    exact ⟨h, hall l hl (by simpa using h)⟩

/-- C7, an instance of the amended claim: one agent with two closed leads. -/
theorem closed_by_agent_sum_witness :
    closedLeadsTotal (readClosedLeadsByAgent assignedStore) = closedWithAgentCount assignedStore ∧
    closedWithAgentCount assignedStore = 2 ∧
    closedLeadsTotal (readClosedLeadsByAgent assignedStore) = closedCount assignedStore :=
  ⟨(closed_by_agent_sum assignedStore (by decide)).1, by decide,
    (closed_by_agent_sum assignedStore (by decide)).2 (by decide)⟩

/-! ## Deals closed in the last seven days -/

theorem recentClosed_matches (zone : TimeZone) (now : Date) (l : Lead) :
    ({ status := some (.eq "Closed"), closedAtGte := some (sevenDayAgo zone now) }
        : LeadQuery).matches l
      = (decide (l.status = some "Closed") &&
          (match l.closedAt with
            | none => false
            | some c => decide (sevenDayAgo zone now ≤ c))) := by
  cases hc : l.closedAt <;> simp [LeadQuery.matches, Cond.holds, hc]

theorem cutoff_eq (now offNow offThen : Int) :
    now + offNow - 604800000 - offThen = now - 604800000 + (offNow - offThen) := by
  omega

theorem six_days_iff (now shift cutoff : Int) (hc : cutoff = now - 604800000 + shift) :
    cutoff ≤ now - 6 * 86400000 ↔ shift ≤ 86400000 := by
  omega

theorem eight_days_iff (now shift cutoff : Int) (hc : cutoff = now - 604800000 + shift) :
    cutoff ≤ now - 8 * 86400000 ↔ shift ≤ -86400000 := by
  omega

/-- C8, the claim fails: in New York at noon of 12 March 2024, two days after the
clocks went forward, the cutoff of `readRecentClosedDeals` is 167 hours before `now`,
and a closed lead whose `closedAt` is exactly `now` minus seven days (of 24 hours) is
not returned; `GET /report/last-week` answers 404. -/
theorem recent_deals_cutoff_is_local :
    sevenDayAgo newYorkZone noonNewYork = noonNewYork - 167 * 3600000 ∧
    (closedAtStore (noonNewYork - sevenDays)).leads.map (fun l => (l.status, l.closedAt))
      = [(some "Closed", some (noonNewYork - sevenDays))] ∧
    readRecentClosedDeals strictSchema newYorkZone (closedAtStore (noonNewYork - sevenDays))
      noonNewYork = [] ∧
    getLastWeek strictSchema newYorkZone (closedAtStore (noonNewYork - sevenDays)) noonNewYork
      = { status := 404, body := .error "No leads closed in the last seven days." } := by
  decide

/-- C8 as amended: `readRecentClosedDeals` returns, in the order of the store, the
views (agent populated, the selected fields) of exactly the leads whose status is
`"Closed"` and whose `closedAt` is at least the cutoff, the bound included and taken
from the `now` of the call.  The cutoff is the local time of `now` seven calendar days
earlier: `now` minus seven days of 24 hours plus the change of the offset of local
time between the two instants, so `now` minus seven days when the offset is the
same.  Every returned view is `"Closed"` with a `closedAt` that is not null.  A lead
closed six days before `now` is returned exactly when the offset has risen by at most
a day, a lead closed eight days before `now` is left out exactly when the offset has
dropped by less than a day. -/
theorem readRecentClosedDeals_window (schema : LeadSchema) (zone : TimeZone) (store : Store)
    (now : Date) :
    readRecentClosedDeals schema zone store now
      = (store.leads.filter (fun l => decide (l.status = some "Closed") &&
          (match l.closedAt with
            | none => false
            | some c => decide (sevenDayAgo zone now ≤ c)))).map
          (fun l =>
            ({ _id := l._id, name := l.name, source := l.source,
               salesAgent :=
                 (match l.salesAgent with
                  | none => none
                  | some a => store.agents.find? (fun x => x._id == a)),
               status := (l.status <|> schema.statusDefault), closedAt := l.closedAt,
               priority := (l.priority <|> schema.priorityDefault) } : ClosedDealView)) ∧
    sevenDayAgo zone now
      = now - sevenDays
        + (zone.offsetAtUtc now - zone.offsetAtLocal (now + zone.offsetAtUtc now - sevenDays)) ∧
    (zone.offsetAtLocal (now + zone.offsetAtUtc now - sevenDays) = zone.offsetAtUtc now →
      sevenDayAgo zone now = now - sevenDays) ∧
    (∀ v ∈ readRecentClosedDeals schema zone store now,
      v.status = some "Closed" ∧ ∃ c, v.closedAt = some c ∧ sevenDayAgo zone now ≤ c) ∧
    (zone.offsetAtUtc now
        - zone.offsetAtLocal (now + zone.offsetAtUtc now - sevenDays) ≤ oneDay →
      ∀ l ∈ store.leads, l.status = some "Closed" → l.closedAt = some (now - 6 * oneDay) →
        ∃ v ∈ readRecentClosedDeals schema zone store now,
          v._id = l._id ∧ v.closedAt = l.closedAt) ∧
    (oneDay < zone.offsetAtUtc now
        - zone.offsetAtLocal (now + zone.offsetAtUtc now - sevenDays) →
      ∀ v ∈ readRecentClosedDeals schema zone store now,
        v.closedAt ≠ some (now - 6 * oneDay)) ∧
    (-oneDay < zone.offsetAtUtc now
        - zone.offsetAtLocal (now + zone.offsetAtUtc now - sevenDays) →
      ∀ v ∈ readRecentClosedDeals schema zone store now,
        v.closedAt ≠ some (now - 8 * oneDay)) ∧
    (zone.offsetAtUtc now
        - zone.offsetAtLocal (now + zone.offsetAtUtc now - sevenDays) ≤ -oneDay →
      ∀ l ∈ store.leads, l.status = some "Closed" → l.closedAt = some (now - 8 * oneDay) →
        ∃ v ∈ readRecentClosedDeals schema zone store now,
          v._id = l._id ∧ v.closedAt = l.closedAt) := by
  have h1 : oneDay = 86400000 := by norm_num [oneDay]
  have h7 : sevenDays = 604800000 := by norm_num [sevenDays, oneDay]
  have hcut : sevenDayAgo zone now
      = now - sevenDays
        + (zone.offsetAtUtc now - zone.offsetAtLocal (now + zone.offsetAtUtc now - sevenDays)) := by
    simp only [sevenDayAgo, h7]
    exact cutoff_eq now _ _
  have hmem : ∀ v, v ∈ readRecentClosedDeals schema zone store now ↔
      ∃ l ∈ store.leads, (l.status = some "Closed" ∧
        ∃ c, l.closedAt = some c ∧ sevenDayAgo zone now ≤ c) ∧
        closedDealView schema store l = v := by
    intro v
    simp only [readRecentClosedDeals, recentClosedFound, leadFind, List.mem_map,
      List.mem_filter, recentClosed_matches]
    constructor
    · rintro ⟨l, ⟨hl, hm⟩, rfl⟩
      refine ⟨l, hl, ?_, rfl⟩
      cases hc : l.closedAt with
      | none => simp [hc] at hm
      | some c => simpa [hc] using hm
    · rintro ⟨l, hl, ⟨hst, c, hc, hle⟩, rfl⟩
      exact ⟨l, ⟨hl, by simp [hst, hc, hle]⟩, rfl⟩
  have hin : ∀ (t : Date), sevenDayAgo zone now ≤ t →
      ∀ l ∈ store.leads, l.status = some "Closed" → l.closedAt = some t →
        ∃ v ∈ readRecentClosedDeals schema zone store now,
          v._id = l._id ∧ v.closedAt = l.closedAt := by
    intro t ht l hl hst hc
    exact ⟨closedDealView schema store l, (hmem _).2 ⟨l, hl, ⟨hst, t, hc, ht⟩, rfl⟩, rfl, rfl⟩
  have hout : ∀ (t : Date), ¬ sevenDayAgo zone now ≤ t →
      ∀ v ∈ readRecentClosedDeals schema zone store now, v.closedAt ≠ some t := by
    intro t ht v hv hvt
    rcases (hmem v).1 hv with ⟨l, _, ⟨_, c, hc, hle⟩, rfl⟩
    have hcv : (closedDealView schema store l).closedAt = l.closedAt := rfl
    rw [hcv, hc] at hvt
    cases hvt
    exact ht hle
  refine ⟨?_, hcut, ?_, ?_, ?_, ?_, ?_, ?_⟩
  · simp only [readRecentClosedDeals, recentClosedFound, leadFind]
    have hf : store.leads.filter
        ({ status := some (.eq "Closed"), closedAtGte := some (sevenDayAgo zone now) }
          : LeadQuery).matches
        = store.leads.filter (fun l => decide (l.status = some "Closed") &&
          (match l.closedAt with
            | none => false
            | some c => decide (sevenDayAgo zone now ≤ c))) :=
      List.filter_congr (fun l _ => recentClosed_matches zone now l)
    rw [hf]
    apply List.map_congr_left
    intro l _
    cases hsa : l.salesAgent <;> simp [closedDealView, hydrate, populateAgent, hsa]
  · intro heq
    rw [hcut, heq]
    simp
  · intro v hv
    rcases (hmem v).1 hv with ⟨l, _, ⟨hst, c, hc, hle⟩, rfl⟩
    exact ⟨by simp [closedDealView, hydrate, hst], c, by simp [closedDealView, hc], hle⟩
  · intro hs
    rw [h1, h7] at hs
    rw [h7] at hcut
    apply hin
    rw [h1]
    exact (six_days_iff now _ _ hcut).2 hs
  · intro hs
    rw [h1, h7] at hs
    rw [h7] at hcut
    apply hout
    rw [h1]
    intro hle
    exact absurd ((six_days_iff now _ _ hcut).1 hle) (not_le.2 hs)
  · intro hs
    rw [h1, h7] at hs
    rw [h7] at hcut
    apply hout
    rw [h1]
    intro hle
    exact absurd ((eight_days_iff now _ _ hcut).1 hle) (not_le.2 hs)
  · intro hs
    rw [h1, h7] at hs
    rw [h7] at hcut
    apply hin
    rw [h1]
    exact (eight_days_iff now _ _ hcut).2 hs

/-- C8, an instance of the amended claim: on a server in UTC the cutoff is `now`
minus seven days, and the lead closed exactly then is returned. -/
theorem readRecentClosedDeals_window_witness :
    sevenDayAgo utcZone noonNewYork = noonNewYork - sevenDays ∧
    readRecentClosedDeals strictSchema utcZone (closedAtStore (noonNewYork - sevenDays))
        noonNewYork
      = [{ _id := 1, name := some "L", source := none, salesAgent := none,
           status := some "Closed", closedAt := some (noonNewYork - sevenDays),
           priority := some "Medium" }] :=
  ⟨(readRecentClosedDeals_window strictSchema utcZone
      (closedAtStore (noonNewYork - sevenDays)) noonNewYork).2.2.1 rfl,
   (readRecentClosedDeals_window strictSchema utcZone
      (closedAtStore (noonNewYork - sevenDays)) noonNewYork).1.trans (by decide)⟩

/-! ## The pipeline count -/

theorem pipeline_matches (l : Lead) :
    ({ status := some (.ne "Closed") } : LeadQuery).matches l
      = decide (l.status ≠ some "Closed") := by
  simp [LeadQuery.matches, Cond.holds]

theorem countP_updateFirst (p : Lead → Bool) (id : ObjectId) (data : LeadBody) (ls : List Lead)
    (stored : Lead) (h : ls.find? (fun l => l._id == id) = some stored) :
    (updateFirst id data ls).countP p + (if p stored = true then 1 else 0)
      = ls.countP p + (if p (applyUpdate data stored) = true then 1 else 0) := by
  induction ls with
  | nil => simp at h
  | cons x xs ih =>
    by_cases hx : x._id = id
    · have hxs : stored = x := by
        simp [List.find?_cons, hx] at h; exact h.symm
      subst hxs
      simp only [updateFirst, hx, if_true, List.countP_cons]
      omega
    · have h2 : xs.find? (fun l => l._id == id) = some stored := by
        simpa [List.find?_cons, hx] using h
      have := ih h2
      simp only [updateFirst, hx, if_false, List.countP_cons]
      omega

theorem pipeline_length (schema : LeadSchema) (store : Store) :
    (readLeadsInPipeline schema store).length
      = store.leads.countP (fun l => decide (l.status ≠ some "Closed")) := by
  unfold readLeadsInPipeline leadFind
  rw [List.length_map, List.countP_eq_length_filter]
  congr 1
  apply List.filter_congr
  intro l _
  exact pipeline_matches l

theorem updateLeadsById_ok_leads (schema : LeadSchema) (store : Store) (now : Date)
    (raw : String) (id : ObjectId) (body : LeadBody) (updated : Lead)
    (hcast : castObjectId raw = some id)
    (hok : (updateLeadsById schema store now raw body).1 = .ok (some updated)) :
    (updateLeadsById schema store now raw body).2.leads
      = updateFirst id (stampClosedAt now body) store.leads := by
  unfold updateLeadsById findByIdAndUpdate at hok ⊢
  rw [hcast] at hok ⊢
  by_cases hv : schema.validateUpdate (stampClosedAt now body) = false
  · simp [hv] at hok
  · cases hfind : store.leads.find? (fun l => l._id == id) with
    | none => simp [hv, hfind] at hok
    | some l => simp [hv, hfind]

/-- C9, the claim fails: a successful `updateLeadsById` with status `"Closed"` on a
lead that is closed already leaves the pipeline count as it is (here 0), it does not
decrease it by one. -/
theorem closing_closed_lead_keeps_pipeline :
    (updateLeadsById strictSchema oneClosedStore 9 leadId1 { status := some "Closed" }).1
      = .ok (some { closedLead 1 none with closedAt := some 9, priority := some "Medium" }) ∧
    (readLeadsInPipeline strictSchema oneClosedStore).length = 0 ∧
    (readLeadsInPipeline strictSchema
      (updateLeadsById strictSchema oneClosedStore 9 leadId1
        { status := some "Closed" }).2).length = 0 ∧
    (readLeadsInPipeline strictSchema
      (updateLeadsById strictSchema oneClosedStore 9 leadId1
        { status := some "Closed" }).2).length + 1
      ≠ (readLeadsInPipeline strictSchema oneClosedStore).length := by
  refine ⟨rfl, by decide, by decide, by decide⟩

/-- C9 as amended: a successful `createLead` whose saved lead has a status other than
`"Closed"` increases the pipeline count (the length of `readLeadsInPipeline`) by one;
a successful `updateLeadsById` with status `"Closed"` on a stored lead decreases it by
one when the stored lead was not `"Closed"` and leaves it unchanged when the stored
lead was `"Closed"` already. -/
theorem pipeline_count_changes (schema : LeadSchema) (store : Store) (oid : ObjectId)
    (raw : String) (now : Date) (body : LeadBody) :
    (∀ saved : Lead, (createLead schema store oid now body).1 = .ok saved →
      saved.status ≠ some "Closed" →
      (readLeadsInPipeline schema (createLead schema store oid now body).2).length
        = (readLeadsInPipeline schema store).length + 1) ∧
    (∀ (id : ObjectId) (stored updated : Lead), castObjectId raw = some id →
      store.leads.find? (fun l => l._id == id) = some stored →
      body.status = some "Closed" →
      (updateLeadsById schema store now raw body).1 = .ok (some updated) →
      (stored.status ≠ some "Closed" →
        (readLeadsInPipeline schema (updateLeadsById schema store now raw body).2).length + 1
          = (readLeadsInPipeline schema store).length) ∧
      (stored.status = some "Closed" →
        (readLeadsInPipeline schema (updateLeadsById schema store now raw body).2).length
          = (readLeadsInPipeline schema store).length)) := by
  constructor
  · intro saved hok hst
    simp only [pipeline_length]
    unfold createLead leadSave at hok ⊢
    split at hok
    · cases hok
    · split at hok
      · cases hok
      · next h1 h2 =>
        simp only [h1, h2, if_false, Bool.false_eq_true] at hok ⊢
        injection hok with hok
        rw [hok]
        simp [List.countP_append, hst]
  · intro id stored updated hcast hfind hbody hok
    simp only [pipeline_length]
    rw [updateLeadsById_ok_leads schema store now raw id body updated hcast hok]
    have hcnt := countP_updateFirst (fun l => decide (l.status ≠ some "Closed")) id
      (stampClosedAt now body) store.leads stored hfind
    have hnew : (applyUpdate (stampClosedAt now body) stored).status = some "Closed" := by
      have hs : (stampClosedAt now body).status = some "Closed" := by
        rw [stampClosedAt_closed now body hbody]; exact hbody
      simp [applyUpdate, applySet, setDocument_status _ _ hs]
    simp only [hnew, ne_eq, not_true_eq_false, decide_False, Bool.false_eq_true, if_false,
      Nat.add_zero] at hcnt
    constructor
    · intro hs
      simp only [ne_eq, hs, not_false_eq_true, decide_True, if_true] at hcnt
      exact hcnt
    · intro hs
      simp only [ne_eq, hs, not_true_eq_false, decide_False, Bool.false_eq_true, if_false,
        Nat.add_zero] at hcnt
      exact hcnt

/-- C9, an instance of the amended claim: in a store with one open lead, creating
an open lead takes the pipeline count from 1 to 2 and closing the stored lead takes
it from 1 to 0. -/
theorem pipeline_count_changes_witness :
    (readLeadsInPipeline strictSchema
      (createLead strictSchema oneLeadStore 2 9
        { name := some "L2", status := some "New" }).2).length
      = (readLeadsInPipeline strictSchema oneLeadStore).length + 1 ∧
    (readLeadsInPipeline strictSchema
      (updateLeadsById strictSchema oneLeadStore 9 leadId1
        { status := some "Closed" }).2).length + 1
      = (readLeadsInPipeline strictSchema oneLeadStore).length :=
  ⟨(pipeline_count_changes strictSchema oneLeadStore 2 leadId1 9
      { name := some "L2", status := some "New" }).1 _ rfl (by decide),
   ((pipeline_count_changes strictSchema oneLeadStore 2 leadId1 9
      { status := some "Closed" }).2 1 _ _ (by decide) rfl rfl rfl).1 (by decide)⟩

/-! ## Deleting a lead -/

theorem removeFirst_none (id : ObjectId) (ls : List Lead) (h : ∀ l ∈ ls, l._id ≠ id) :
    removeFirst id ls = (none, ls) := by
  induction ls with
  | nil => rfl
  | cons x xs ih =>
    have hx : x._id ≠ id := h x (List.mem_cons_self _ _)
    have hxs := ih (fun l hl => h l (List.mem_cons_of_mem _ hl))
    simp [removeFirst, hx, hxs]

theorem removeFirst_some (id : ObjectId) (ls : List Lead) (h : ∃ l ∈ ls, l._id = id) :
    ∃ d l1 l2, ls = l1 ++ d :: l2 ∧ d._id = id ∧ (∀ x ∈ l1, x._id ≠ id) ∧
      removeFirst id ls = (some d, l1 ++ l2) := by
  induction ls with
  | nil => rcases h with ⟨l, hl, _⟩; cases hl
  | cons x xs ih =>
    by_cases hx : x._id = id
    · exact ⟨x, [], xs, rfl, hx, by simp, by simp [removeFirst, hx]⟩
    · have hxs : ∃ l ∈ xs, l._id = id := by
        rcases h with ⟨l, hl, hid⟩
        rcases List.mem_cons.1 hl with rfl | hl
        · exact absurd hid hx
        · exact ⟨l, hl, hid⟩
      rcases ih hxs with ⟨d, l1, l2, h1, h2, h3, h4⟩
      refine ⟨d, x :: l1, l2, by simp [h1], h2, ?_, by simp [removeFirst, hx, h4]⟩
      intro y hy
      rcases List.mem_cons.1 hy with rfl | hy
      · exact hx
      · exact h3 y hy

/-- C10, the claim fails: the id `3` matches no stored lead, and `DELETE /leads/3`
answers 500, not 404: the id is no `ObjectId`, `findByIdAndDelete` throws `CastError`
and the handler answers from its `catch`. -/
theorem delete_with_malformed_id_answers_500 :
    castObjectId "3" = none ∧
    (deleteLeadById strictSchema commentedStore "3").1 = .error castError ∧
    deleteLead strictSchema commentedStore "3"
      = ({ status := 500, body := .error "An error occured while deleting the lead!" },
          commentedStore) := by
  refine ⟨by decide, rfl, rfl⟩

/-- C10 as amended: for an id that is an `ObjectId` (24 hexadecimal digits), when no
stored lead has the id, `DELETE /leads/:id` answers 404 and the store is unchanged;
when a stored lead has the id, it answers 200 with the deleted record, which is the
first lead of that id, the leads of the store are the former ones without that one
record, and the comments, agents and tags are untouched; it never answers 500.  For
an id that is no `ObjectId` it answers 500 and the store is unchanged. -/
theorem deleteLead_not_found_or_removed (schema : LeadSchema) (store : Store)
    (raw : String) :
    (∀ id : ObjectId, castObjectId raw = some id →
      ((∀ l ∈ store.leads, l._id ≠ id) →
        deleteLead schema store raw
          = ({ status := 404, body := .error "Lead not found" }, store)) ∧
      ((∃ l ∈ store.leads, l._id = id) →
        ∃ d l1 l2, store.leads = l1 ++ d :: l2 ∧ d._id = id ∧ (∀ x ∈ l1, x._id ≠ id) ∧
          deleteLead schema store raw
            = ({ status := 200,
                 body := .deletedLead "Lead deleted successfully"
                   { d with status := (d.status <|> schema.statusDefault),
                            priority := (d.priority <|> schema.priorityDefault) } },
               { agents := store.agents, leads := l1 ++ l2, tags := store.tags,
                 comments := store.comments })) ∧
      (deleteLead schema store raw).1.status ≠ 500) ∧
    (castObjectId raw = none →
      deleteLead schema store raw
        = ({ status := 500, body := .error "An error occured while deleting the lead!" },
            store)) := by
  refine ⟨fun id hcast => ⟨fun h => ?_, fun h => ?_, ?_⟩, fun hcast => ?_⟩
  · simp [deleteLead, deleteLeadById, findByIdAndDelete, hcast, removeFirst_none id store.leads h]
  · rcases removeFirst_some id store.leads h with ⟨d, l1, l2, h1, h2, h3, h4⟩
    exact ⟨d, l1, l2, h1, h2, h3,
      by simp [deleteLead, deleteLeadById, findByIdAndDelete, hcast, h4, hydrate]⟩
  · simp only [deleteLead, deleteLeadById, findByIdAndDelete, hcast]
    cases (removeFirst id store.leads).1 <;> simp
  · simp [deleteLead, deleteLeadById, findByIdAndDelete, hcast]

/-- C10, an instance of the amended claim: deleting the unknown lead 3, given as an
`ObjectId`, answers 404 and changes nothing; deleting the commented lead 1 answers 200
with that lead, leaves lead 2 and keeps the comment. -/
theorem deleteLead_not_found_or_removed_witness :
    deleteLead strictSchema commentedStore "000000000000000000000003"
      = ({ status := 404, body := .error "Lead not found" }, commentedStore) ∧
    (∃ d l1 l2, commentedStore.leads = l1 ++ d :: l2 ∧ d._id = 1 ∧ (∀ x ∈ l1, x._id ≠ 1) ∧
      deleteLead strictSchema commentedStore leadId1
        = ({ status := 200,
             body := .deletedLead "Lead deleted successfully"
               { d with status := (d.status <|> strictSchema.statusDefault),
                        priority := (d.priority <|> strictSchema.priorityDefault) } },
           { agents := commentedStore.agents, leads := l1 ++ l2, tags := commentedStore.tags,
             comments := commentedStore.comments })) ∧
    deleteLead strictSchema commentedStore leadId1
      = ({ status := 200,
           body := .deletedLead "Lead deleted successfully"
             { closedLead 1 none with priority := some "Medium" } },
          { leads := [closedLead 2 none],
            comments := [{ _id := 5, lead := some 1, author := none,
                           commentText := "call back" }] }) :=
  ⟨((deleteLead_not_found_or_removed strictSchema commentedStore
      "000000000000000000000003").1 3 (by decide)).1 (by decide),
   ((deleteLead_not_found_or_removed strictSchema commentedStore leadId1).1 1
      (by decide)).2.1 (by decide),
   rfl⟩

end Anvaya
